import Mathlib

/-!
Shallow embedding of the GCMtools repository (exorad/GCMtools):
  - GCMtools/utils/passport.py   (is_the_data_basic, is_the_data_cloudy)
  - GCMtools/GCMtools.py         (GCMT registry: _replace_model, __getitem__, get_one_model)
  - GCMtools/utils/manipulations.py (m_add_horizontal_average, m_add_meridional_overturning)

Datasets (xarray.Dataset) are modelled by the parts these code paths observe:
the list of data-variable names, the list of coordinate names, and the
attribute dictionary.  For the numeric reductions a second view carries the
actual array data as rational-valued functions.  Python exceptions are
modelled with `Except PyErr`.
-/

namespace GCMtools

/-- A value stored in a dataset attribute dictionary: either a string
(for example the unit attributes and the tag) or a number
(gravity, planetary radius and so on). -/
inductive AttrVal where
  | s (v : String)
  | q (v : ℚ)
deriving DecidableEq, Repr

/-- The Python exceptions raised by the embedded code paths. -/
inductive PyErr where
  | valueError (msg : String)
  | notImplementedError (msg : String)
  | keyError (key : String)
deriving DecidableEq, Repr

/-- Lookup in a Python-dict model (association list keeps insertion order;
lookup returns the value at the key, if present). -/
def assocGet {α : Type} : List (String × α) → String → Option α
  | [], _ => none
  | p :: rest, k => if p.1 = k then some p.2 else assocGet rest k

/-- `d[k] = v` on a Python-dict model: replaces the value in place when the
key is present (keeping insertion order), appends otherwise. -/
def assocSet {α : Type} (m : List (String × α)) (k : String) (v : α) : List (String × α) :=
  if m.any (fun p => p.1 = k) then
    m.map (fun p => if p.1 = k then (k, v) else p)
  else
    m ++ [(k, v)]

/-- The observable part of an `xarray.Dataset` used by passport.py and by the
GCMT registry: data-variable names (`list(dataset.keys())`), coordinate names
(`list(dataset.coords)`), and the attribute dictionary (`dataset.attrs`). -/
structure Dataset where
  dvars : List String
  coords : List String
  attrs : List (String × AttrVal)
deriving DecidableEq, Repr

/-- `dataset.attrs.get(k)`. -/
def Dataset.attrsGet (ds : Dataset) (k : String) : Option AttrVal :=
  assocGet ds.attrs k

/-- `dataset.attrs.update({k: v})`. -/
def Dataset.setAttr (ds : Dataset) (k : String) (v : AttrVal) : Dataset :=
  { ds with attrs := assocSet ds.attrs k v }

/-- Modelled from the spec: `GCMtools/core/const.py` (the `VARNAMES`
dictionary `c`) is not among the provided source files.  The spec lists the
required coordinate axes (longitude, latitude, vertical level, time), the
required fields (temperature and the three wind components) and the required
scalar attributes (gravity, rotation period, orbital period, planetary
radius); `manipulations.py` uses the literal coordinate names `Z` and `lat`
directly, so the dictionary is modelled as the identity on its keys. -/
def VARNAMES (k : String) : String := k

/-- One presence check of `is_the_data_basic` / `is_the_data_cloudy`:
when the check fails, the diagnostic message is built from
`str(dataset.attrs['tag'])`, which raises `KeyError('tag')` when the dataset
has no `tag` attribute; otherwise the message is only logged.  When the
check passes nothing happens.  (Setting the `is_the_data_ok` flag is modelled
separately, since in `is_the_data_basic` the flag only gates a final log
message and never reaches the return value.) -/
def checkItem (ds : Dataset) (present : Bool) : Except PyErr Unit :=
  if present then pure ()
  else
    match ds.attrsGet "tag" with
    | some _ => pure ()
    | none => Except.error (PyErr.keyError "tag")

/-- Runs a list of presence checks in order (the loop over
`to_be_checked_coords` followed by the straight-line `if` checks). -/
def runChecks (ds : Dataset) : List Bool → Except PyErr Unit
  | [] => pure ()
  | b :: rest => do
      checkItem ds b
      runChecks ds rest

/-- The twelve presence booleans of `is_the_data_basic`, in source order:
the four required coordinates, the four required data variables, and the
four required scalar attributes. -/
def basicChecks (dataset : Dataset) : List Bool :=
  [dataset.coords.contains (VARNAMES "lon"),
   dataset.coords.contains (VARNAMES "lat"),
   dataset.coords.contains (VARNAMES "Z"),
   dataset.coords.contains (VARNAMES "time"),
   dataset.dvars.contains (VARNAMES "T"),
   dataset.dvars.contains (VARNAMES "U"),
   dataset.dvars.contains (VARNAMES "V"),
   dataset.dvars.contains (VARNAMES "W"),
   (dataset.attrsGet (VARNAMES "g")).isSome,
   (dataset.attrsGet (VARNAMES "P_rot")).isSome,
   (dataset.attrsGet (VARNAMES "P_orb")).isSome,
   (dataset.attrsGet (VARNAMES "R_p")).isSome]

/-- `is_the_data_basic` (passport.py, lines 15-106): runs the twelve presence
checks, each failing check writing a diagnostic that evaluates
`dataset.attrs['tag']`; the `is_the_data_ok` flag only controls a final
logged error message, and the function ends with the unconditional
`return True`. -/
def is_the_data_basic (dataset : Dataset) : Except PyErr Bool := do
  runChecks dataset (basicChecks dataset)
  return true

/-- The four cloud-property presence booleans of `is_the_data_cloudy`,
in source order. -/
def cloudChecks (dataset : Dataset) : List Bool :=
  [dataset.dvars.contains "ClAb",
   dataset.dvars.contains "ClDr",
   dataset.dvars.contains "ClKs",
   dataset.dvars.contains "ClKa"]

/-- `is_the_data_cloudy` (passport.py, lines 109-159): first calls
`is_the_data_basic` (return value discarded, exceptions propagate), then
checks the four cloud-property variables; each missing one logs a warning
that evaluates `dataset.attrs['tag']` and clears `is_the_data_ok`, which is
returned at the end. -/
def is_the_data_cloudy (dataset : Dataset) : Except PyErr Bool := do
  let _ ← is_the_data_basic dataset
  runChecks dataset (cloudChecks dataset)
  return (cloudChecks dataset).all id

/-- A tag argument as passed to `_replace_model` / `__getitem__`: either a
Python string or some non-string value. -/
inductive Key where
  | str (s : String)
  | nonStr (v : String)
deriving DecidableEq, Repr

/-- The GCMT session object: the tag-to-dataset mapping `_models`
(a `GCMDatasetCollection`, i.e. an insertion-ordered dict) together with the
configured pressure and time units chosen at construction. -/
structure GCMT where
  models : List (String × Dataset)
  p_unit : String
  time_unit : String
deriving DecidableEq, Repr

/-- Modelled from the spec: `GCMDatasetCollection.get_one_model` lives in
`GCMtools/GCMDatasetCollection.py`, which is not among the provided source
files; only its caller `GCMT.get_one_model` is.  Per the spec (sections 4.1
and 8): with a tag, it returns that dataset or fails when the tag is absent;
with no tag it returns the single stored dataset when exactly one exists and
fails when zero or several exist; with `raise_error = False` the failures
return `None` instead of raising. -/
def get_one_model (g : GCMT) (tag : Option String) (raise_error : Bool) :
    Except PyErr (Option Dataset) :=
  match tag with
  | some t =>
    match assocGet g.models t with
    | some ds => Except.ok (some ds)
    | none =>
      if raise_error then
        Except.error (PyErr.valueError "The provided tag does not exist in the collection")
      else
        Except.ok none
  | none =>
    match g.models with
    | [(_, ds)] => Except.ok (some ds)
    | _ =>
      if raise_error then
        Except.error (PyErr.valueError "Not exactly one model selected")
      else
        Except.ok none

/-- `GCMT._replace_model` (GCMtools.py, lines 194-218): rejects non-string
tags with a `ValueError`; (the `isinstance(ds, xarray.Dataset)` check holds
for every value of the `Dataset` model); runs `is_the_data_basic` and would
reject with `ValueError` if it returned a falsy value; raises
`NotImplementedError` when `ds.attrs.get('p_unit')` or
`ds.attrs.get('time_unit')` differs from the session units; finally stamps
`ds.attrs['tag'] = tag` and stores the dataset under the tag. -/
def _replace_model (g : GCMT) (tag : Key) (ds : Dataset) : Except PyErr GCMT := do
  match tag with
  | Key.nonStr _ =>
    Except.error (PyErr.valueError "The provided tag needs to be a string.")
  | Key.str t => do
    let ok ← is_the_data_basic ds
    if !ok then
      Except.error (PyErr.valueError "The provided input dataset is not compatible.")
    else if ds.attrsGet "p_unit" ≠ some (AttrVal.s g.p_unit) then
      Except.error (PyErr.notImplementedError "Unit conversion is needed and not yet implemented")
    else if ds.attrsGet "time_unit" ≠ some (AttrVal.s g.time_unit) then
      Except.error (PyErr.notImplementedError "Unit conversion is needed and not yet implemented")
    else
      let ds2 := ds.setAttr "tag" (AttrVal.s t)
      Except.ok { g with models := assocSet g.models t ds2 }

/-- The caller's view of the mapping after an insertion attempt: on success
the updated mapping, on an exception the mapping is as before the call
(`_replace_model` raises before any mutation of `_models`). -/
def insertResultModels (g : GCMT) (tag : Key) (ds : Dataset) : List (String × Dataset) :=
  match _replace_model g tag ds with
  | Except.ok g2 => g2.models
  | Except.error _ => g.models

/-- `GCMT.__getitem__` (GCMtools.py, lines 98-115): raises `ValueError` when
the tag is not among the keys of `_models` (a non-string tag is never among
the string keys), then delegates to `get_one_model(tag, raise_error=True)`.
The final branch for dataset-absent-after-membership cannot be reached. -/
def getitem (g : GCMT) (tag : Key) : Except PyErr Dataset :=
  match tag with
  | Key.nonStr _ =>
    Except.error (PyErr.valueError "The provided tag does not exist in the collection")
  | Key.str t =>
    if (assocGet g.models t).isNone then
      Except.error (PyErr.valueError "The provided tag does not exist in the collection")
    else
      match get_one_model g (some t) true with
      | Except.ok (some ds) => Except.ok ds
      | Except.ok none =>
        Except.error (PyErr.valueError "The provided tag does not exist in the collection")
      | Except.error e => Except.error e

/-- The numpy entry points used by `m_add_meridional_overturning`
(`np.pi`, `np.cos`): numpy is an external dependency of the repository,
so its constants are kept abstract parameters of the embedding. -/
structure NumpyOps where
  pi : ℚ
  cos : ℚ → ℚ

/-- An array stored as a data variable in the numeric dataset view:
a full (lon, lat, Z, time)-indexed field, or a (Z, time)-indexed field as
produced by the horizontal average.  Arrays are functions on `ℕ` indices;
the dataset carries the extents. -/
inductive XArr where
  | a4 (f : ℕ → ℕ → ℕ → ℕ → ℚ)
  | azt (f : ℕ → ℕ → ℚ)

/-- The numeric view of an `xarray.Dataset` used by manipulations.py:
named data variables with their values, the latitude and vertical-level
coordinate values, the attribute dictionary, and the extents of the four
dimensions. -/
structure MDataset where
  nlon : ℕ
  nlat : ℕ
  nz : ℕ
  nt : ℕ
  dvars : List (String × XArr)
  lat : ℕ → ℚ
  zco : ℕ → ℚ
  attrs : List (String × AttrVal)

/-- `ds[k]` on the numeric view. -/
def MDataset.getVar (ds : MDataset) (k : String) : Option XArr :=
  assocGet ds.dvars k

/-- `ds.attrs.get(k)` on the numeric view. -/
def MDataset.attrsGet (ds : MDataset) (k : String) : Option AttrVal :=
  assocGet ds.attrs k

/-- A numeric attribute (`ds.R_p`, `ds.g`). -/
def MDataset.numAttr (ds : MDataset) (k : String) : Option ℚ :=
  match assocGet ds.attrs k with
  | some (AttrVal.q v) => some v
  | _ => none

/-- Cumulative trapezoidal integral along a coordinate, as computed by
`DataArray.cumulative_integrate`: the value at index `z` is the sum of the
trapezoid areas of the segments below `z`, and the value at index 0 is 0. -/
def trapz (zc : ℕ → ℚ) (f : ℕ → ℚ) : ℕ → ℚ
  | 0 => 0
  | k + 1 => trapz zc f k + (zc (k + 1) - zc k) * (f (k + 1) + f k) / 2

/-- `m_add_horizontal_average` (manipulations.py, lines 7-48), at the level
of the dataset resolved by `gcmt.get_one_model(tag)`: computes
`(ds[area_key] * ds[var_key]).sum(dim=[lon, lat]) / ds[area_key].sum(dim=[lon, lat])`
and, when `var_key_out` is given, stores it into the dataset with
`ds.update({var_key_out: avg})`.  Returns the average together with the
dataset as it is after the call, or `none` when a named variable is absent
(a Python `KeyError`). -/
def m_add_horizontal_average (ds : MDataset) (var_key : String)
    (var_key_out : Option String) (area_key : String) :
    Option ((ℕ → ℕ → ℚ) × MDataset) :=
  match ds.getVar area_key, ds.getVar var_key with
  | some (XArr.a4 area), some (XArr.a4 q) =>
    let avg : ℕ → ℕ → ℚ := fun z t =>
      (∑ l ∈ Finset.range ds.nlon, ∑ a ∈ Finset.range ds.nlat, area l a z t * q l a z t) /
        (∑ l ∈ Finset.range ds.nlon, ∑ a ∈ Finset.range ds.nlat, area l a z t)
    let ds2 :=
      match var_key_out with
      | none => ds
      | some out => { ds with dvars := assocSet ds.dvars out (XArr.azt avg) }
    some (avg, ds2)
  | _, _ => none

/-- `m_add_meridional_overturning` (manipulations.py, lines 51-92):
`V_integral = ds[v_data].cumulative_integrate(coord='Z')`, divided by `1.0e5`
exactly when `ds.attrs.get('p_unit') == 'bar'`, then
`psi = 2 * np.pi * np.cos(ds.lat / 180 * np.pi) * ds.R_p / ds.g * V_integral`;
when `var_key_out` is given, `ds.update({var_key_out: psi})`.  Returns `psi`
together with the dataset as it is after the call, or `none` when the wind
variable or a needed scalar attribute is absent. -/
def m_add_meridional_overturning (ops : NumpyOps) (ds : MDataset)
    (v_data : String) (var_key_out : Option String) :
    Option ((ℕ → ℕ → ℕ → ℕ → ℚ) × MDataset) :=
  match ds.getVar v_data with
  | some (XArr.a4 v) =>
    let V_integral0 : ℕ → ℕ → ℕ → ℕ → ℚ := fun l a z t =>
      trapz ds.zco (fun j => v l a j t) z
    let V_integral : ℕ → ℕ → ℕ → ℕ → ℚ :=
      if ds.attrsGet "p_unit" = some (AttrVal.s "bar") then
        fun l a z t => V_integral0 l a z t / 100000
      else
        V_integral0
    match ds.numAttr "R_p", ds.numAttr "g" with
    | some rp, some grav =>
      let psi : ℕ → ℕ → ℕ → ℕ → ℚ := fun l a z t =>
        2 * ops.pi * ops.cos (ds.lat a / 180 * ops.pi) * rp / grav * V_integral l a z t
      let ds2 :=
        match var_key_out with
        | none => ds
        | some out => { ds with dvars := assocSet ds.dvars out (XArr.a4 psi) }
      some (psi, ds2)
    | _, _ => none
  | _ => none

/-! ## Helper lemmas -/

theorem assocGet_replace_self {α : Type} (m : List (String × α)) (k : String) (v : α)
    (h : m.any (fun p => p.1 = k) = true) :
    assocGet (m.map (fun p => if p.1 = k then (k, v) else p)) k = some v := by
  induction m with
  | nil => simp at h
  | cons p rest ih =>
    by_cases hp : p.1 = k
    · simp [assocGet, hp]
    · simp only [List.any_cons, decide_eq_true_eq, hp, decide_False, Bool.false_or] at h
      simp only [List.map_cons, if_neg hp, assocGet]
      exact ih h

theorem assocGet_replace_ne {α : Type} (m : List (String × α)) (k k' : String) (v : α)
    (hne : ¬ k' = k) :
    assocGet (m.map (fun p => if p.1 = k then (k, v) else p)) k' = assocGet m k' := by
  induction m with
  | nil => rfl
  | cons p rest ih =>
    by_cases hp : p.1 = k
    · have h1 : ¬ (k = k') := fun e => hne e.symm
      have h2 : ¬ (p.1 = k') := fun e => hne (e.symm.trans hp)
      simp only [List.map_cons, if_pos hp, assocGet]
      rw [if_neg h1, if_neg h2, ih]
    · simp only [List.map_cons, if_neg hp, assocGet]
      by_cases hq : p.1 = k'
      · rw [if_pos hq, if_pos hq]
      · rw [if_neg hq, if_neg hq, ih]

theorem assocGet_append_single_self {α : Type} (m : List (String × α)) (k : String) (v : α)
    (h : m.any (fun p => p.1 = k) = false) :
    assocGet (m ++ [(k, v)]) k = some v := by
  induction m with
  | nil => simp [assocGet]
  | cons p rest ih =>
    simp only [List.any_cons, Bool.or_eq_false_iff, decide_eq_false_iff_not] at h
    rw [show (p :: rest) ++ [(k, v)] = p :: (rest ++ [(k, v)]) from rfl]
    simp only [assocGet]
    rw [if_neg h.1]
    exact ih h.2

theorem assocGet_append_single_ne {α : Type} (m : List (String × α)) (k k' : String) (v : α)
    (hne : ¬ k' = k) : assocGet (m ++ [(k, v)]) k' = assocGet m k' := by
  induction m with
  | nil =>
    simp only [List.nil_append, assocGet]
    rw [if_neg (fun e => hne e.symm)]
  | cons p rest ih =>
    rw [show (p :: rest) ++ [(k, v)] = p :: (rest ++ [(k, v)]) from rfl]
    simp only [assocGet]
    by_cases hq : p.1 = k'
    · rw [if_pos hq, if_pos hq]
    · rw [if_neg hq, if_neg hq, ih]

theorem assocGet_assocSet_self {α : Type} (m : List (String × α)) (k : String) (v : α) :
    assocGet (assocSet m k v) k = some v := by
  unfold assocSet
  cases h : m.any (fun p => p.1 = k) with
  | true =>
    rw [if_pos rfl]
    exact assocGet_replace_self m k v h
  | false =>
    rw [if_neg Bool.false_ne_true]
    exact assocGet_append_single_self m k v h

theorem assocGet_assocSet_ne {α : Type} (m : List (String × α)) (k k' : String) (v : α)
    (hne : k' ≠ k) : assocGet (assocSet m k v) k' = assocGet m k' := by
  unfold assocSet
  cases h : m.any (fun p => p.1 = k) with
  | true =>
    rw [if_pos rfl]
    exact assocGet_replace_ne m k k' v hne
  | false =>
    rw [if_neg Bool.false_ne_true]
    exact assocGet_append_single_ne m k k' v hne

theorem checkItem_pass (ds : Dataset) : checkItem ds true = pure () := rfl

theorem checkItem_of_tag (ds : Dataset) (w : AttrVal) (h : ds.attrsGet "tag" = some w)
    (b : Bool) : checkItem ds b = pure () := by
  cases b
  · simp [checkItem, h]
  · rfl

theorem checkItem_of_no_tag (ds : Dataset) (h : ds.attrsGet "tag" = none) (b : Bool) :
    checkItem ds b = if b then pure () else Except.error (PyErr.keyError "tag") := by
  cases b
  · simp [checkItem, h]
  · rfl

theorem runChecks_of_tag (ds : Dataset) (w : AttrVal) (h : ds.attrsGet "tag" = some w) :
    ∀ l : List Bool, runChecks ds l = pure ()
  | [] => rfl
  | b :: rest => by
    rw [runChecks, checkItem_of_tag ds w h b, runChecks_of_tag ds w h rest]
    rfl

theorem runChecks_of_no_tag (ds : Dataset) (h : ds.attrsGet "tag" = none) :
    ∀ l : List Bool,
      runChecks ds l = if l.all id then pure () else Except.error (PyErr.keyError "tag")
  | [] => rfl
  | b :: rest => by
    rw [runChecks, checkItem_of_no_tag ds h b]
    cases b
    · rfl
    · rw [show ((if true then pure () else Except.error (PyErr.keyError "tag")) :
          Except PyErr Unit) = pure () from rfl]
      rw [runChecks_of_no_tag ds h rest]
      simp [List.all_cons]

theorem runChecks_dichotomy (ds : Dataset) :
    ∀ l : List Bool,
      runChecks ds l = pure () ∨ runChecks ds l = Except.error (PyErr.keyError "tag") := by
  intro l
  cases h : ds.attrsGet "tag" with
  | some w => exact Or.inl (runChecks_of_tag ds w h l)
  | none =>
    rw [runChecks_of_no_tag ds h l]
    by_cases hall : l.all id
    · exact Or.inl (by rw [if_pos hall])
    · exact Or.inr (by rw [if_neg hall])

theorem is_the_data_basic_dichotomy (ds : Dataset) :
    is_the_data_basic ds = Except.ok true ∨
      is_the_data_basic ds = Except.error (PyErr.keyError "tag") := by
  unfold is_the_data_basic
  rcases runChecks_dichotomy ds (basicChecks ds) with h | h <;> rw [h]
  · exact Or.inl rfl
  · exact Or.inr rfl

theorem is_the_data_basic_of_tag (ds : Dataset) (w : AttrVal)
    (h : ds.attrsGet "tag" = some w) : is_the_data_basic ds = Except.ok true := by
  unfold is_the_data_basic
  rw [runChecks_of_tag ds w h (basicChecks ds)]
  rfl

theorem is_the_data_basic_never_ok_false (ds : Dataset) (b : Bool)
    (h : is_the_data_basic ds = Except.ok b) : b = true := by
  rcases is_the_data_basic_dichotomy ds with h2 | h2 <;> rw [h2] at h
  · cases h
    rfl
  · exact absurd h (fun hh => Except.noConfusion hh)

theorem is_the_data_basic_of_no_tag_incomplete (ds : Dataset)
    (htag : ds.attrsGet "tag" = none) (hmiss : (basicChecks ds).all id = false) :
    is_the_data_basic ds = Except.error (PyErr.keyError "tag") := by
  unfold is_the_data_basic
  rw [runChecks_of_no_tag ds htag (basicChecks ds),
    if_neg (by rw [hmiss]; exact Bool.false_ne_true)]
  rfl

theorem replace_model_after_basic (g : GCMT) (t : String) (ds : Dataset)
    (hb : is_the_data_basic ds = Except.ok true) :
    _replace_model g (Key.str t) ds =
      (if ds.attrsGet "p_unit" ≠ some (AttrVal.s g.p_unit) then
        Except.error (PyErr.notImplementedError "Unit conversion is needed and not yet implemented")
      else if ds.attrsGet "time_unit" ≠ some (AttrVal.s g.time_unit) then
        Except.error (PyErr.notImplementedError "Unit conversion is needed and not yet implemented")
      else
        Except.ok { g with models := assocSet g.models t (ds.setAttr "tag" (AttrVal.s t)) }) := by
  unfold _replace_model
  rw [hb]
  rfl

theorem replace_model_basic_error (g : GCMT) (t : String) (ds : Dataset) (e : PyErr)
    (hb : is_the_data_basic ds = Except.error e) :
    _replace_model g (Key.str t) ds = Except.error e := by
  unfold _replace_model
  rw [hb]
  rfl

theorem is_the_data_cloudy_of_tag (ds : Dataset) (w : AttrVal)
    (h : ds.attrsGet "tag" = some w) :
    is_the_data_cloudy ds = Except.ok ((cloudChecks ds).all id) := by
  unfold is_the_data_cloudy
  rw [is_the_data_basic_of_tag ds w h, runChecks_of_tag ds w h (cloudChecks ds)]
  rfl

/-! ## Claim theorems -/

/-- **C1** (amended).  The basic schema validator never reports failure to its
caller: whenever `is_the_data_basic` returns at all, it returns `True`, and in
particular it returns `True` for every dataset carrying a `tag` attribute,
however many required coordinates, fields or attributes are missing.
Consequently the `'not compatible'` `ValueError` branch of `_replace_model`
is unreachable.  (The unamended claim fails only because on an untagged
incomplete dataset the validator raises `KeyError` instead of returning.) -/
theorem C1_basic_validator_always_affirmative (ds : Dataset) :
    (∀ b : Bool, is_the_data_basic ds = Except.ok b → b = true) ∧
    ((ds.attrsGet "tag").isSome = true → is_the_data_basic ds = Except.ok true) ∧
    (∀ (g : GCMT) (t : String),
      _replace_model g (Key.str t) ds ≠
        Except.error (PyErr.valueError "The provided input dataset is not compatible.")) := by
  refine ⟨is_the_data_basic_never_ok_false ds, ?_, ?_⟩
  · intro h
    cases hw : ds.attrsGet "tag" with
    | none => rw [hw] at h; exact absurd h (by simp)
    | some w => exact is_the_data_basic_of_tag ds w hw
  · intro g t
    rcases is_the_data_basic_dichotomy ds with hb | hb
    · rw [replace_model_after_basic g t ds hb]
      by_cases hp : ds.attrsGet "p_unit" ≠ some (AttrVal.s g.p_unit)
      · rw [if_pos hp]; simp
      · rw [if_neg hp]
        by_cases ht : ds.attrsGet "time_unit" ≠ some (AttrVal.s g.time_unit)
        · rw [if_pos ht]; simp
        · rw [if_neg ht]; simp
    · rw [replace_model_basic_error g t ds _ hb]; simp

/-- **C1** witness: a dataset that has a `tag` attribute but none of the
required coordinates, fields or attributes still validates as `True`. -/
theorem C1_witness :
    is_the_data_basic { dvars := [], coords := [], attrs := [("tag", AttrVal.s "t1")] } =
      Except.ok true :=
  (C1_basic_validator_always_affirmative _).2.1 rfl

/-- **C1** counterexample: on the empty dataset (no coordinates, no fields,
no attributes) `is_the_data_basic` does not return `True` to its caller; it
raises `KeyError('tag')` from building the first diagnostic message. -/
theorem C1_counterexample :
    is_the_data_basic { dvars := [], coords := [], attrs := [] } ≠ Except.ok true ∧
    is_the_data_basic { dvars := [], coords := [], attrs := [] } =
      Except.error (PyErr.keyError "tag") := by
  constructor
  · intro h
    rw [show is_the_data_basic { dvars := [], coords := [], attrs := [] } =
      Except.error (PyErr.keyError "tag") from rfl] at h
    exact Except.noConfusion h
  · rfl

/-- **C10**.  The basic validator is not total: on a dataset that lacks a
`tag` attribute and is missing at least one required coordinate, field or
scalar attribute, `is_the_data_basic` raises `KeyError('tag')` (its
diagnostic message evaluates `dataset.attrs['tag']`) instead of returning a
boolean, and an insertion of such a dataset via `_replace_model` crashes the
same way. -/
theorem C10_untagged_incomplete_raises (ds : Dataset)
    (htag : ds.attrsGet "tag" = none)
    (hmiss : (basicChecks ds).all id = false) :
    is_the_data_basic ds = Except.error (PyErr.keyError "tag") ∧
    ∀ (g : GCMT) (t : String),
      _replace_model g (Key.str t) ds = Except.error (PyErr.keyError "tag") := by
  have h1 := is_the_data_basic_of_no_tag_incomplete ds htag hmiss
  exact ⟨h1, fun g t => replace_model_basic_error g t ds _ h1⟩

/-- **C10** witness: a dataset with a single coordinate, no fields and no
attributes crashes the basic validator with `KeyError('tag')`. -/
theorem C10_witness :
    is_the_data_basic { dvars := [], coords := ["lon"], attrs := [] } =
      Except.error (PyErr.keyError "tag") ∧
    ∀ (g : GCMT) (t : String),
      _replace_model g (Key.str t) { dvars := [], coords := ["lon"], attrs := [] } =
        Except.error (PyErr.keyError "tag") :=
  C10_untagged_incomplete_raises _ rfl rfl

/-- **C5**.  Inserting under a non-string tag always fails immediately with
`ValueError('The provided tag needs to be a string.')`, for every session
state and every dataset, and the tag-to-dataset mapping the caller holds is
unchanged. -/
theorem C5_nonstring_tag_insert_fails (g : GCMT) (x : String) (ds : Dataset) :
    _replace_model g (Key.nonStr x) ds =
      Except.error (PyErr.valueError "The provided tag needs to be a string.") ∧
    insertResultModels g (Key.nonStr x) ds = g.models :=
  ⟨rfl, rfl⟩

/-- **C4** (amended).  For every dataset on which the basic schema check
returns normally and whose `p_unit` or `time_unit` attribute differs from the
session's configured units, `_replace_model` fails with
`NotImplementedError('Unit conversion is needed and not yet implemented')`
and the tag-to-dataset mapping is left unchanged.  (The unamended claim fails
only on datasets that additionally crash the basic check: an untagged
incomplete dataset raises `KeyError` before the unit comparison runs.) -/
theorem C4_unit_mismatch_insert_fails (g : GCMT) (t : String) (ds : Dataset)
    (hret : ∃ b : Bool, is_the_data_basic ds = Except.ok b)
    (hmis : ds.attrsGet "p_unit" ≠ some (AttrVal.s g.p_unit) ∨
            ds.attrsGet "time_unit" ≠ some (AttrVal.s g.time_unit)) :
    _replace_model g (Key.str t) ds =
      Except.error (PyErr.notImplementedError "Unit conversion is needed and not yet implemented") ∧
    insertResultModels g (Key.str t) ds = g.models := by
  obtain ⟨b, hb⟩ := hret
  have hb1 : b = true := is_the_data_basic_never_ok_false ds b hb
  rw [hb1] at hb
  have hmain : _replace_model g (Key.str t) ds =
      Except.error (PyErr.notImplementedError "Unit conversion is needed and not yet implemented") := by
    rw [replace_model_after_basic g t ds hb]
    rcases hmis with hm | hm
    · rw [if_pos hm]
    · by_cases hp : ds.attrsGet "p_unit" ≠ some (AttrVal.s g.p_unit)
      · rw [if_pos hp]
      · rw [if_neg hp, if_pos hm]
  refine ⟨hmain, ?_⟩
  unfold insertResultModels
  rw [hmain]

/-- **C4** witness: a tagged but otherwise empty dataset whose `p_unit` says
`Pa` cannot be inserted into a `bar` session; the insert raises
`NotImplementedError` and the mapping stays empty. -/
theorem C4_witness :
    _replace_model { models := [], p_unit := "bar", time_unit := "day" } (Key.str "run1")
        { dvars := [], coords := [],
          attrs := [("tag", AttrVal.s "old"), ("p_unit", AttrVal.s "Pa")] } =
      Except.error (PyErr.notImplementedError "Unit conversion is needed and not yet implemented") ∧
    insertResultModels { models := [], p_unit := "bar", time_unit := "day" } (Key.str "run1")
        { dvars := [], coords := [],
          attrs := [("tag", AttrVal.s "old"), ("p_unit", AttrVal.s "Pa")] } =
      ({ models := [], p_unit := "bar", time_unit := "day" } : GCMT).models :=
  C4_unit_mismatch_insert_fails _ _ _ ⟨true, rfl⟩ (Or.inl (by decide))

/-- **C4** counterexample: an untagged dataset missing required schema
elements and carrying a mismatched `p_unit` makes the insert raise
`KeyError('tag')` (from the basic check's diagnostics), not the
unimplemented-conversion `NotImplementedError` the unamended claim names. -/
theorem C4_counterexample :
    _replace_model { models := [], p_unit := "bar", time_unit := "day" } (Key.str "run1")
        { dvars := [], coords := [], attrs := [("p_unit", AttrVal.s "Pa")] } =
      Except.error (PyErr.keyError "tag") ∧
    _replace_model { models := [], p_unit := "bar", time_unit := "day" } (Key.str "run1")
        { dvars := [], coords := [], attrs := [("p_unit", AttrVal.s "Pa")] } ≠
      Except.error (PyErr.notImplementedError "Unit conversion is needed and not yet implemented") := by
  refine ⟨rfl, ?_⟩
  intro h
  rw [show _replace_model { models := [], p_unit := "bar", time_unit := "day" } (Key.str "run1")
      { dvars := [], coords := [], attrs := [("p_unit", AttrVal.s "Pa")] } =
    Except.error (PyErr.keyError "tag") from rfl] at h
  simp at h

/-- **C3**.  Selecting with no tag (`get_one_model(tag=None, raise_error=True)`)
fails when the registry holds zero datasets or two or more datasets, and
succeeds returning the sole stored dataset when exactly one is stored. -/
theorem C3_untagged_selection (g : GCMT) :
    (g.models = [] →
      get_one_model g none true =
        Except.error (PyErr.valueError "Not exactly one model selected")) ∧
    (∀ (t : String) (d : Dataset), g.models = [(t, d)] →
      get_one_model g none true = Except.ok (some d)) ∧
    (2 ≤ g.models.length →
      get_one_model g none true =
        Except.error (PyErr.valueError "Not exactly one model selected")) := by
  obtain ⟨ms, pu, tu⟩ := g
  refine ⟨?_, ?_, ?_⟩
  · intro h
    simp only at h
    rw [show ({ models := ms, p_unit := pu, time_unit := tu } : GCMT) =
      { models := [], p_unit := pu, time_unit := tu } by rw [h]]
    rfl
  · intro t d h
    simp only at h
    rw [show ({ models := ms, p_unit := pu, time_unit := tu } : GCMT) =
      { models := [(t, d)], p_unit := pu, time_unit := tu } by rw [h]]
    rfl
  · intro h2
    simp only at h2
    match ms, h2 with
    | p :: q :: rest, _ => rfl

/-- **C3** witness: selection with no tag raises on an empty registry,
returns the sole dataset of a one-entry registry, and raises on a two-entry
registry. -/
theorem C3_witness :
    get_one_model
        { models := [("a", { dvars := [], coords := [], attrs := [] })],
          p_unit := "bar", time_unit := "day" } none true =
      Except.ok (some { dvars := [], coords := [], attrs := [] }) :=
  (C3_untagged_selection _).2.1 "a" { dvars := [], coords := [], attrs := [] } rfl

/-- **C9** (amended).  For every dataset carrying a `tag` attribute,
`is_the_data_cloudy` first invokes the basic check and then returns `False`
when any of the four cloud-property fields `ClAb`, `ClDr`, `ClKs`, `ClKa` is
missing from the dataset's variables, and `True` when all four are present.
(The unamended claim fails only on untagged datasets, where a missing cloud
field makes the warning message raise `KeyError` instead of returning.) -/
theorem C9_cloud_validator (ds : Dataset) (w : AttrVal)
    (h : ds.attrsGet "tag" = some w) :
    ((ds.dvars.contains "ClAb" && ds.dvars.contains "ClDr" &&
        ds.dvars.contains "ClKs" && ds.dvars.contains "ClKa") = true →
      is_the_data_cloudy ds = Except.ok true) ∧
    ((ds.dvars.contains "ClAb" && ds.dvars.contains "ClDr" &&
        ds.dvars.contains "ClKs" && ds.dvars.contains "ClKa") = false →
      is_the_data_cloudy ds = Except.ok false) := by
  have hc := is_the_data_cloudy_of_tag ds w h
  have hall : (cloudChecks ds).all id =
      (ds.dvars.contains "ClAb" && ds.dvars.contains "ClDr" &&
        ds.dvars.contains "ClKs" && ds.dvars.contains "ClKa") := by
    simp only [cloudChecks, List.all_cons, List.all_nil, id_eq, Bool.and_true]
    cases ds.dvars.contains "ClAb" <;> cases ds.dvars.contains "ClDr" <;>
      cases ds.dvars.contains "ClKs" <;> cases ds.dvars.contains "ClKa" <;> rfl
  rw [hall] at hc
  constructor
  · intro hp
    rw [hc, hp]
  · intro hp
    rw [hc, hp]

/-- **C9** witness: a tagged dataset with all four cloud fields validates as
`True`; a tagged dataset missing them validates as `False`. -/
theorem C9_witness :
    is_the_data_cloudy
        { dvars := ["ClAb", "ClDr", "ClKs", "ClKa"], coords := [],
          attrs := [("tag", AttrVal.s "t1")] } = Except.ok true ∧
    is_the_data_cloudy
        { dvars := ["ClAb", "ClDr", "ClKs"], coords := [],
          attrs := [("tag", AttrVal.s "t1")] } = Except.ok false :=
  ⟨(C9_cloud_validator
      { dvars := ["ClAb", "ClDr", "ClKs", "ClKa"], coords := [],
        attrs := [("tag", AttrVal.s "t1")] } (AttrVal.s "t1") rfl).1 rfl,
   (C9_cloud_validator
      { dvars := ["ClAb", "ClDr", "ClKs"], coords := [],
        attrs := [("tag", AttrVal.s "t1")] } (AttrVal.s "t1") rfl).2 rfl⟩

/-- **C9** counterexample: on a dataset that satisfies every basic
requirement but has no `tag` attribute and no cloud fields,
`is_the_data_cloudy` raises `KeyError('tag')` from the warning message
instead of returning `False` as the unamended claim states. -/
theorem C9_counterexample :
    is_the_data_cloudy
        { dvars := ["T", "U", "V", "W"], coords := ["lon", "lat", "Z", "time"],
          attrs := [("g", AttrVal.q 10), ("P_rot", AttrVal.q 1),
                    ("P_orb", AttrVal.q 2), ("R_p", AttrVal.q 3)] } =
      Except.error (PyErr.keyError "tag") ∧
    is_the_data_cloudy
        { dvars := ["T", "U", "V", "W"], coords := ["lon", "lat", "Z", "time"],
          attrs := [("g", AttrVal.q 10), ("P_rot", AttrVal.q 1),
                    ("P_orb", AttrVal.q 2), ("R_p", AttrVal.q 3)] } ≠
      Except.ok false := by
  refine ⟨rfl, ?_⟩
  intro h
  rw [show is_the_data_cloudy
      { dvars := ["T", "U", "V", "W"], coords := ["lon", "lat", "Z", "time"],
        attrs := [("g", AttrVal.q 10), ("P_rot", AttrVal.q 1),
                  ("P_orb", AttrVal.q 2), ("R_p", AttrVal.q 3)] } =
    Except.error (PyErr.keyError "tag") from rfl] at h
  exact Except.noConfusion h

/-- **C2**.  For every tag `t` and dataset `d` that passes the schema check
and whose `p_unit` and `time_unit` attributes match the session's configured
units, `insert(t, d)` succeeds and `select(t)` then returns the dataset `d`
as stamped: its `tag` attribute equals `t` and its variables, coordinates and
every other attribute are those of `d`.  (In the source the tag is stamped
into `d` itself before storing, so the returned dataset is `d` with
`attrs['tag'] = t`.) -/
theorem C2_insert_then_select_roundtrip (g : GCMT) (t : String) (ds : Dataset)
    (hb : is_the_data_basic ds = Except.ok true)
    (hp : ds.attrsGet "p_unit" = some (AttrVal.s g.p_unit))
    (ht : ds.attrsGet "time_unit" = some (AttrVal.s g.time_unit)) :
    ∃ g2 : GCMT, _replace_model g (Key.str t) ds = Except.ok g2 ∧
      getitem g2 (Key.str t) = Except.ok (ds.setAttr "tag" (AttrVal.s t)) ∧
      (ds.setAttr "tag" (AttrVal.s t)).attrsGet "tag" = some (AttrVal.s t) ∧
      (ds.setAttr "tag" (AttrVal.s t)).dvars = ds.dvars ∧
      (ds.setAttr "tag" (AttrVal.s t)).coords = ds.coords ∧
      ∀ k : String, k ≠ "tag" →
        (ds.setAttr "tag" (AttrVal.s t)).attrsGet k = ds.attrsGet k := by
  refine ⟨{ g with models := assocSet g.models t (ds.setAttr "tag" (AttrVal.s t)) },
    ?_, ?_, ?_, rfl, rfl, ?_⟩
  · rw [replace_model_after_basic g t ds hb, if_neg (fun hcon => hcon hp),
      if_neg (fun hcon => hcon ht)]
  · have hget : assocGet (assocSet g.models t (ds.setAttr "tag" (AttrVal.s t))) t =
        some (ds.setAttr "tag" (AttrVal.s t)) := assocGet_assocSet_self _ _ _
    simp only [getitem, get_one_model, hget, Option.isNone_some, Bool.false_eq_true,
      if_false]
  · show assocGet (assocSet ds.attrs "tag" (AttrVal.s t)) "tag" = some (AttrVal.s t)
    exact assocGet_assocSet_self _ _ _
  · intro k hk
    show assocGet (assocSet ds.attrs "tag" (AttrVal.s t)) k = assocGet ds.attrs k
    exact assocGet_assocSet_ne _ _ _ _ hk

/-- **C2** witness: inserting a tagged, unit-matching dataset under `run1`
into an empty `bar`/`day` session and selecting `run1` returns the dataset
with its `tag` attribute stamped to `run1`. -/
theorem C2_witness :
    ∃ g2 : GCMT,
      _replace_model { models := [], p_unit := "bar", time_unit := "day" } (Key.str "run1")
          { dvars := [], coords := [],
            attrs := [("tag", AttrVal.s "old"), ("p_unit", AttrVal.s "bar"),
                      ("time_unit", AttrVal.s "day")] } = Except.ok g2 ∧
      getitem g2 (Key.str "run1") =
        Except.ok (Dataset.setAttr
          { dvars := [], coords := [],
            attrs := [("tag", AttrVal.s "old"), ("p_unit", AttrVal.s "bar"),
                      ("time_unit", AttrVal.s "day")] } "tag" (AttrVal.s "run1")) ∧
      (Dataset.setAttr
          { dvars := [], coords := [],
            attrs := [("tag", AttrVal.s "old"), ("p_unit", AttrVal.s "bar"),
                      ("time_unit", AttrVal.s "day")] } "tag"
          (AttrVal.s "run1")).attrsGet "tag" = some (AttrVal.s "run1") ∧
      (Dataset.setAttr
          { dvars := [], coords := [],
            attrs := [("tag", AttrVal.s "old"), ("p_unit", AttrVal.s "bar"),
                      ("time_unit", AttrVal.s "day")] } "tag"
          (AttrVal.s "run1")).dvars =
        ({ dvars := [], coords := [],
           attrs := [("tag", AttrVal.s "old"), ("p_unit", AttrVal.s "bar"),
                     ("time_unit", AttrVal.s "day")] } : Dataset).dvars ∧
      (Dataset.setAttr
          { dvars := [], coords := [],
            attrs := [("tag", AttrVal.s "old"), ("p_unit", AttrVal.s "bar"),
                      ("time_unit", AttrVal.s "day")] } "tag"
          (AttrVal.s "run1")).coords =
        ({ dvars := [], coords := [],
           attrs := [("tag", AttrVal.s "old"), ("p_unit", AttrVal.s "bar"),
                     ("time_unit", AttrVal.s "day")] } : Dataset).coords ∧
      ∀ k : String, k ≠ "tag" →
        (Dataset.setAttr
            { dvars := [], coords := [],
              attrs := [("tag", AttrVal.s "old"), ("p_unit", AttrVal.s "bar"),
                        ("time_unit", AttrVal.s "day")] } "tag"
            (AttrVal.s "run1")).attrsGet k =
          ({ dvars := [], coords := [],
             attrs := [("tag", AttrVal.s "old"), ("p_unit", AttrVal.s "bar"),
                       ("time_unit", AttrVal.s "day")] } : Dataset).attrsGet k :=
  C2_insert_then_select_roundtrip
    { models := [], p_unit := "bar", time_unit := "day" } "run1"
    { dvars := [], coords := [],
      attrs := [("tag", AttrVal.s "old"), ("p_unit", AttrVal.s "bar"),
                ("time_unit", AttrVal.s "day")] } rfl rfl rfl

/-- **C7**.  When the averaged field is uniformly equal to a constant `k` at
every (longitude, latitude, level, time) point and the area-weight field has
non-zero total weight, the horizontal average `Σ(area·field)/Σ(area)` over
(lon, lat) equals `k` at every remaining index, independent of the weight
distribution. -/
theorem C7_horizontal_average_uniform (ds : MDataset) (var_key area_key : String)
    (var_key_out : Option String) (k : ℚ) (area : ℕ → ℕ → ℕ → ℕ → ℚ)
    (hvar : ds.getVar var_key = some (XArr.a4 (fun _ _ _ _ => k)))
    (harea : ds.getVar area_key = some (XArr.a4 area))
    (hw : ∀ z t : ℕ,
      (∑ l ∈ Finset.range ds.nlon, ∑ a ∈ Finset.range ds.nlat, area l a z t) ≠ 0) :
    ∃ p, m_add_horizontal_average ds var_key var_key_out area_key = some p ∧
      ∀ z t : ℕ, p.1 z t = k := by
  unfold m_add_horizontal_average
  rw [harea, hvar]
  refine ⟨_, rfl, ?_⟩
  intro z t
  show (∑ l ∈ Finset.range ds.nlon, ∑ a ∈ Finset.range ds.nlat,
          area l a z t * (fun _ _ _ _ => k) l a z t) /
        (∑ l ∈ Finset.range ds.nlon, ∑ a ∈ Finset.range ds.nlat, area l a z t) = k
  simp only
  rw [show (∑ l ∈ Finset.range ds.nlon, ∑ a ∈ Finset.range ds.nlat, area l a z t * k) =
      (∑ l ∈ Finset.range ds.nlon, ∑ a ∈ Finset.range ds.nlat, area l a z t) * k from by
    rw [Finset.sum_mul]
    exact Finset.sum_congr rfl (fun l _ => (Finset.sum_mul _ _ _).symm)]
  exact mul_div_cancel_left₀ _ (hw z t)

/-- **C7** witness: a uniform field equal to 5 averaged with constant unit
area weights on a 1×1×1×1 grid gives 5 at the remaining index. -/
theorem C7_witness :
    ∃ p, m_add_horizontal_average
        { nlon := 1, nlat := 1, nz := 1, nt := 1,
          dvars := [("T", XArr.a4 (fun _ _ _ _ => 5)),
                    ("area_c", XArr.a4 (fun _ _ _ _ => 1))],
          lat := fun _ => 0, zco := fun _ => 0, attrs := [] } "T" none "area_c" = some p ∧
      ∀ z t : ℕ, p.1 z t = 5 :=
  C7_horizontal_average_uniform _ "T" "area_c" none 5 (fun _ _ _ _ => 1) rfl rfl
    (fun z t => by simp)

/-- **C6**.  The meridional overturning reduction computes the cumulative
(trapezoidal) integral of the named meridional-wind field along the
vertical-level dimension, divides it by `1e5` if and only if the dataset's
`p_unit` attribute equals `'bar'` (for any other unit the integral is
unchanged by that step), and multiplies by
`2π · cos(latitude·π/180) · R_p / g` taken from the dataset's own
attributes. -/
theorem C6_meridional_overturning_formula (ops : NumpyOps) (ds : MDataset)
    (v_data : String) (var_key_out : Option String) (v : ℕ → ℕ → ℕ → ℕ → ℚ)
    (rp grav : ℚ)
    (hv : ds.getVar v_data = some (XArr.a4 v))
    (hr : ds.numAttr "R_p" = some rp)
    (hg : ds.numAttr "g" = some grav) :
    ∃ p, m_add_meridional_overturning ops ds v_data var_key_out = some p ∧
      (∀ l a z t : ℕ, p.1 l a z t =
        2 * ops.pi * ops.cos (ds.lat a / 180 * ops.pi) * rp / grav *
          (trapz ds.zco (fun j => v l a j t) z /
            (if ds.attrsGet "p_unit" = some (AttrVal.s "bar") then 100000 else 1))) ∧
      (ds.attrsGet "p_unit" ≠ some (AttrVal.s "bar") →
        ∀ l a z t : ℕ, p.1 l a z t =
          2 * ops.pi * ops.cos (ds.lat a / 180 * ops.pi) * rp / grav *
            trapz ds.zco (fun j => v l a j t) z) := by
  simp only [m_add_meridional_overturning]
  rw [hv, hr, hg]
  by_cases hb : ds.attrsGet "p_unit" = some (AttrVal.s "bar")
  · rw [if_pos hb]
    refine ⟨_, rfl, ?_, ?_⟩
    · intro l a z t
      rw [if_pos hb]
    · intro hcon
      exact absurd hb hcon
  · rw [if_neg hb]
    refine ⟨_, rfl, ?_, ?_⟩
    · intro l a z t
      rw [if_neg hb, div_one]
    · intro _ l a z t
      rw [if_neg hb]

/-- **C6** witness: on a 1×1×2×1 grid with `p_unit = 'Pa'` the streamfunction
equals the scale factor times the raw cumulative integral (no `1e5`
division). -/
theorem C6_witness :
    ∃ p, m_add_meridional_overturning { pi := 3, cos := fun _ => 1 }
        { nlon := 1, nlat := 1, nz := 2, nt := 1,
          dvars := [("V", XArr.a4 (fun _ _ _ _ => 7))],
          lat := fun _ => 0, zco := fun j => j,
          attrs := [("p_unit", AttrVal.s "Pa"), ("R_p", AttrVal.q 2), ("g", AttrVal.q 4)] }
        "V" none = some p ∧
      (∀ l a z t : ℕ, p.1 l a z t =
        2 * (3 : ℚ) * 1 * 2 / 4 *
          (trapz (fun j => (j : ℚ)) (fun _ => 7) z /
            (if (some (AttrVal.s "Pa") : Option AttrVal) = some (AttrVal.s "bar")
             then 100000 else 1))) ∧
      ((some (AttrVal.s "Pa") : Option AttrVal) ≠ some (AttrVal.s "bar") →
        ∀ l a z t : ℕ, p.1 l a z t =
          2 * (3 : ℚ) * 1 * 2 / 4 * trapz (fun j => (j : ℚ)) (fun _ => 7) z) :=
  C6_meridional_overturning_formula { pi := 3, cos := fun _ => 1 }
    { nlon := 1, nlat := 1, nz := 2, nt := 1,
      dvars := [("V", XArr.a4 (fun _ _ _ _ => 7))],
      lat := fun _ => 0, zco := fun j => j,
      attrs := [("p_unit", AttrVal.s "Pa"), ("R_p", AttrVal.q 2), ("g", AttrVal.q 4)] }
    "V" none (fun _ _ _ _ => 7) 2 4 rfl rfl rfl

/-- **C8**.  For both reductions: with `var_key_out = None` the call returns
the result and leaves the target dataset entirely unchanged; with a supplied
output name the result is stored into the dataset under that name while all
other data variables, the coordinates, the attributes and the dimension
extents are unchanged. -/
theorem C8_reductions_mutate_only_output (ops : NumpyOps) (ds : MDataset)
    (var_key area_key v_data out : String)
    (area q v : ℕ → ℕ → ℕ → ℕ → ℚ) (rp grav : ℚ)
    (harea : ds.getVar area_key = some (XArr.a4 area))
    (hvar : ds.getVar var_key = some (XArr.a4 q))
    (hv : ds.getVar v_data = some (XArr.a4 v))
    (hr : ds.numAttr "R_p" = some rp)
    (hg : ds.numAttr "g" = some grav) :
    (∃ p, m_add_horizontal_average ds var_key none area_key = some p ∧ p.2 = ds) ∧
    (∃ p, m_add_horizontal_average ds var_key (some out) area_key = some p ∧
      p.2.getVar out = some (XArr.azt p.1) ∧
      (∀ k2 : String, k2 ≠ out → p.2.getVar k2 = ds.getVar k2) ∧
      p.2.lat = ds.lat ∧ p.2.zco = ds.zco ∧ p.2.attrs = ds.attrs ∧
      p.2.nlon = ds.nlon ∧ p.2.nlat = ds.nlat ∧ p.2.nz = ds.nz ∧ p.2.nt = ds.nt) ∧
    (∃ p, m_add_meridional_overturning ops ds v_data none = some p ∧ p.2 = ds) ∧
    (∃ p, m_add_meridional_overturning ops ds v_data (some out) = some p ∧
      p.2.getVar out = some (XArr.a4 p.1) ∧
      (∀ k2 : String, k2 ≠ out → p.2.getVar k2 = ds.getVar k2) ∧
      p.2.lat = ds.lat ∧ p.2.zco = ds.zco ∧ p.2.attrs = ds.attrs ∧
      p.2.nlon = ds.nlon ∧ p.2.nlat = ds.nlat ∧ p.2.nz = ds.nz ∧ p.2.nt = ds.nt) := by
  refine ⟨?_, ?_, ?_, ?_⟩
  · unfold m_add_horizontal_average
    rw [harea, hvar]
    exact ⟨_, rfl, rfl⟩
  · unfold m_add_horizontal_average
    rw [harea, hvar]
    refine ⟨_, rfl, ?_, ?_, rfl, rfl, rfl, rfl, rfl, rfl, rfl⟩
    · exact assocGet_assocSet_self _ _ _
    · intro k2 hk2
      exact assocGet_assocSet_ne _ _ _ _ hk2
  · simp only [m_add_meridional_overturning]
    rw [hv, hr, hg]
    exact ⟨_, rfl, rfl⟩
  · simp only [m_add_meridional_overturning]
    rw [hv, hr, hg]
    refine ⟨_, rfl, ?_, ?_, rfl, rfl, rfl, rfl, rfl, rfl, rfl⟩
    · exact assocGet_assocSet_self _ _ _
    · intro k2 hk2
      exact assocGet_assocSet_ne _ _ _ _ hk2

/-- **C8** witness: on a concrete 1×1×1×1 dataset, both reductions leave the
dataset untouched without an output name and touch only the `o` variable with
one. -/
theorem C8_witness :
    (∃ p, m_add_horizontal_average
        { nlon := 1, nlat := 1, nz := 1, nt := 1,
          dvars := [("a", XArr.a4 (fun _ _ _ _ => 1)), ("V", XArr.a4 (fun _ _ _ _ => 1))],
          lat := fun _ => 0, zco := fun _ => 0,
          attrs := [("R_p", AttrVal.q 1), ("g", AttrVal.q 1)] } "V" none "a" = some p ∧
      p.2 =
        { nlon := 1, nlat := 1, nz := 1, nt := 1,
          dvars := [("a", XArr.a4 (fun _ _ _ _ => 1)), ("V", XArr.a4 (fun _ _ _ _ => 1))],
          lat := fun _ => 0, zco := fun _ => 0,
          attrs := [("R_p", AttrVal.q 1), ("g", AttrVal.q 1)] }) ∧
    (∃ p, m_add_horizontal_average
        { nlon := 1, nlat := 1, nz := 1, nt := 1,
          dvars := [("a", XArr.a4 (fun _ _ _ _ => 1)), ("V", XArr.a4 (fun _ _ _ _ => 1))],
          lat := fun _ => 0, zco := fun _ => 0,
          attrs := [("R_p", AttrVal.q 1), ("g", AttrVal.q 1)] } "V" (some "o") "a" = some p ∧
      p.2.getVar "o" = some (XArr.azt p.1) ∧
      (∀ k2 : String, k2 ≠ "o" → p.2.getVar k2 =
        MDataset.getVar
          { nlon := 1, nlat := 1, nz := 1, nt := 1,
            dvars := [("a", XArr.a4 (fun _ _ _ _ => 1)), ("V", XArr.a4 (fun _ _ _ _ => 1))],
            lat := fun _ => 0, zco := fun _ => 0,
            attrs := [("R_p", AttrVal.q 1), ("g", AttrVal.q 1)] } k2) ∧
      p.2.lat = (fun _ => (0 : ℚ)) ∧ p.2.zco = (fun _ => (0 : ℚ)) ∧
      p.2.attrs = [("R_p", AttrVal.q 1), ("g", AttrVal.q 1)] ∧
      p.2.nlon = 1 ∧ p.2.nlat = 1 ∧ p.2.nz = 1 ∧ p.2.nt = 1) ∧
    (∃ p, m_add_meridional_overturning { pi := 0, cos := fun _ => 0 }
        { nlon := 1, nlat := 1, nz := 1, nt := 1,
          dvars := [("a", XArr.a4 (fun _ _ _ _ => 1)), ("V", XArr.a4 (fun _ _ _ _ => 1))],
          lat := fun _ => 0, zco := fun _ => 0,
          attrs := [("R_p", AttrVal.q 1), ("g", AttrVal.q 1)] } "V" none = some p ∧
      p.2 =
        { nlon := 1, nlat := 1, nz := 1, nt := 1,
          dvars := [("a", XArr.a4 (fun _ _ _ _ => 1)), ("V", XArr.a4 (fun _ _ _ _ => 1))],
          lat := fun _ => 0, zco := fun _ => 0,
          attrs := [("R_p", AttrVal.q 1), ("g", AttrVal.q 1)] }) ∧
    (∃ p, m_add_meridional_overturning { pi := 0, cos := fun _ => 0 }
        { nlon := 1, nlat := 1, nz := 1, nt := 1,
          dvars := [("a", XArr.a4 (fun _ _ _ _ => 1)), ("V", XArr.a4 (fun _ _ _ _ => 1))],
          lat := fun _ => 0, zco := fun _ => 0,
          attrs := [("R_p", AttrVal.q 1), ("g", AttrVal.q 1)] } "V" (some "o") = some p ∧
      p.2.getVar "o" = some (XArr.a4 p.1) ∧
      (∀ k2 : String, k2 ≠ "o" → p.2.getVar k2 =
        MDataset.getVar
          { nlon := 1, nlat := 1, nz := 1, nt := 1,
            dvars := [("a", XArr.a4 (fun _ _ _ _ => 1)), ("V", XArr.a4 (fun _ _ _ _ => 1))],
            lat := fun _ => 0, zco := fun _ => 0,
            attrs := [("R_p", AttrVal.q 1), ("g", AttrVal.q 1)] } k2) ∧
      p.2.lat = (fun _ => (0 : ℚ)) ∧ p.2.zco = (fun _ => (0 : ℚ)) ∧
      p.2.attrs = [("R_p", AttrVal.q 1), ("g", AttrVal.q 1)] ∧
      p.2.nlon = 1 ∧ p.2.nlat = 1 ∧ p.2.nz = 1 ∧ p.2.nt = 1) :=
  C8_reductions_mutate_only_output { pi := 0, cos := fun _ => 0 }
    { nlon := 1, nlat := 1, nz := 1, nt := 1,
      dvars := [("a", XArr.a4 (fun _ _ _ _ => 1)), ("V", XArr.a4 (fun _ _ _ _ => 1))],
      lat := fun _ => 0, zco := fun _ => 0,
      attrs := [("R_p", AttrVal.q 1), ("g", AttrVal.q 1)] } "V" "a" "V" "o"
    (fun _ _ _ _ => 1) (fun _ _ _ _ => 1) (fun _ _ _ _ => 1) 1 1 rfl rfl rfl rfl rfl

end GCMtools
